import Mathlib

/-!
Shallow embedding of the core of `sherlock.py` (probe dispatch and outcome
classification for username-existence checks across web services).

The embedding models:
  * the verdict data model (`QueryStatus`, `QueryResult`, from the result
    module, as described by the spec's verdict taxonomy);
  * per-service catalog entries (`NetInfo`, the `net_info` dictionaries);
  * request construction (`probeRequest`, mirroring the first pass of
    `sherlock`), including the HEAD/GET choice and redirect suppression;
  * transport outcomes (`Response` / `ReqException`) and `get_response`;
  * classification (`classifyOutcome`, mirroring the second-pass body of
    `sherlock`), with Python's `raise ValueError` modelled as `Except.error`;
  * the whole run (`sherlock`), mapping per-service processing over the
    catalog in catalog order.

External collaborators are parameters: the HTTP transport is a function
`Request → Except ReqException Response` (the deterministic resolution of
each request future), and `re.search` is an abstract
`(pattern username : String) → Bool`.
-/

/-- Verdict states, from the result module (modelled from the spec's verdict
taxonomy: `Claimed`, `Available`, `Unknown`, `Illegal`). -/
inductive QueryStatus where
  | CLAIMED
  | AVAILABLE
  | UNKNOWN
  | ILLEGAL
deriving DecidableEq, Repr

/-- A verdict together with optional context, from the result module
(`QueryResult(status, context)`; context defaults to `None`). -/
structure QueryResult where
  status : QueryStatus
  context : Option String
deriving DecidableEq, Repr

/-- A dynamically typed Python value as stored in a `results_site`
dictionary field: a string, an integer, bytes, or `None`. -/
inductive PyVal where
  | vStr (s : String)
  | vNat (n : Nat)
  | vBytes (s : String)
  | vNone
deriving DecidableEq, Repr

/-- One service descriptor (`net_info`) from the catalog. -/
structure NetInfo where
  urlMain : String
  url : String
  urlProbe : Option String
  errorType : String
  errorMsg : Option String
  regexCheck : Option String
  headers : List (String × String)
deriving DecidableEq, Repr

/-- A completed HTTP response: status code, body text, declared encoding
(`None` when the server declared none), and elapsed time (as recorded by the
response-time hook). -/
structure Response where
  status_code : Nat
  text : String
  encoding : Option String
  elapsed : Nat
deriving DecidableEq, Repr

/-- The transport-layer exceptions caught by `get_response`, each carrying
its message. The constructors are ordered as the `except` clauses are. -/
inductive ReqException where
  | HTTPError (msg : String)
  | ProxyError (msg : String)
  | ConnectionError (msg : String)
  | Timeout (msg : String)
  | RequestException (msg : String)
deriving DecidableEq, Repr

/-- The `error_context` string assigned by the matching `except` clause of
`get_response`. -/
def error_context_of : ReqException → String
  | .HTTPError _ => "HTTP Error"
  | .ProxyError _ => "Proxy Error"
  | .ConnectionError _ => "Error Connecting"
  | .Timeout _ => "Timeout Error"
  | .RequestException _ => "Unknown Error"

/-- The `expection_text` string assigned by the matching `except` clause of
`get_response` (Python: `str(err)`). -/
def expection_text_of : ReqException → String
  | .HTTPError m => m
  | .ProxyError m => m
  | .ConnectionError m => m
  | .Timeout m => m
  | .RequestException m => m

/-- `get_response(request_future, ...)`: resolve the future; on success with
a truthy (nonzero) status code clear the error context, otherwise keep
`"General Unknown Error"`; on an exception return the context and text for
its class.  Returns `(response, error_context, expection_text)`. -/
def get_response (request_future : Except ReqException Response) :
    Option Response × Option String × Option String :=
  match request_future with
  | .ok response =>
      if response.status_code ≠ 0 then
        (some response, none, none)
      else
        (some response, some "General Unknown Error", none)
  | .error err =>
      (none, some (error_context_of err), some (expection_text_of err))

/-- Substitute `username` for the first `\x7b\x7d` placeholder occurrence in
a character list. -/
def formatAux (username : String) : List Char → List Char
  | [] => []
  | '\x7b' :: '\x7d' :: rest => username.data ++ rest
  | c :: rest => c :: formatAux username rest

/-- Python `fmt.format(username)` for the catalog URL templates, which
contain a single positional `\x7b\x7d` placeholder: substitute `username`
for the first placeholder occurrence. -/
def pythonFormat (template username : String) : String :=
  String.mk (formatAux username template.data)

/-- Python substring membership `needle in haystack`. -/
def strContains (haystack needle : String) : Bool :=
  decide (needle.toList <:+: haystack.toList)

/-- Python `dict.update`: existing keys of `base` keep their position but
take the value from `extra` when present; keys only in `extra` are appended
in `extra`'s order. -/
def dictUpdate (base extra : List (String × String)) : List (String × String) :=
  base.map (fun kv =>
    match extra.lookup kv.1 with
    | some v => (kv.1, v)
    | none => kv)
  ++ extra.filter (fun kv => (base.lookup kv.1).isNone)

/-- The default header set (`headers` in `sherlock`): a realistic browser
User-Agent. -/
def default_headers : List (String × String) :=
  [("User-Agent",
    "Mozilla/5.0 (Macintosh; Intel Mac OS X 10.12; rv:55.0) Gecko/20100101 Firefox/55.0")]

/-- The username-format gate (line `if regex_check and re.search(...) is None`):
the service is skipped exactly when `regexCheck` is present and truthy
(non-empty) and `re.search` finds no match of it in the username. -/
def regexRejects (reSearch : String → String → Bool) (username : String)
    (net_info : NetInfo) : Bool :=
  match net_info.regexCheck with
  | some regex_check => regex_check ≠ "" && !(reSearch regex_check username)
  | none => false

/-- The dispatched HTTP request, as built by the first pass of `sherlock`:
the probe URL (`urlProbe` templated if present, else the profile URL), a
HEAD method exactly for `status_code` detection, redirect-following
disabled exactly for `response_url` detection, merged headers, the proxy
configuration and the shared timeout. -/
structure Request where
  method : String
  url : String
  headers : List (String × String)
  proxies : Option String
  allow_redirects : Bool
  timeout : Option Nat
deriving DecidableEq, Repr

/-- Build the request dispatched for one service (first-pass body of
`sherlock`, non-illegal branch). -/
def probeRequest (username : String) (proxy : Option String)
    (timeout : Option Nat) (net_info : NetInfo) : Request :=
  let url := pythonFormat net_info.url username
  let url_probe :=
    match net_info.urlProbe with
    | none => url
    | some p => pythonFormat p username
  { method := if net_info.errorType = "status_code" then "HEAD" else "GET"
    url := url_probe
    headers := dictUpdate default_headers net_info.headers
    proxies := proxy
    allow_redirects := if net_info.errorType = "response_url" then false else true
    timeout := timeout }

/-- One `results_site` dictionary.  Fields written only later (or never, on
the illegal path everything is written at once) are `Option`-valued; the
dynamically typed fields use `PyVal`. -/
structure SiteResult where
  url_main : String
  url_user : PyVal
  status : Option QueryResult
  http_status : Option PyVal
  response_text : Option PyVal
  response_time_s : Option PyVal
deriving DecidableEq, Repr

/-- The `results_site` recorded for a service whose username fails the
format check: verdict `ILLEGAL` and empty strings for every probe-derived
field. -/
def illegalResult (net_info : NetInfo) : SiteResult :=
  { url_main := net_info.urlMain
    url_user := .vStr ""
    status := some ⟨.ILLEGAL, none⟩
    http_status := some (.vStr "")
    response_text := some (.vStr "")
    response_time_s := some (.vStr "") }

/-- The fields computed by the second-pass body of `sherlock` for one
pending service. -/
structure SiteUpdate where
  result : QueryResult
  http_status : PyVal
  response_text : PyVal
  response_time_s : PyVal
deriving DecidableEq, Repr

/-- Second-pass body of `sherlock` for one pending service: run
`get_response`, extract response time / status / text with their
`try`/`except` fallbacks, then classify.  A transport failure short-circuits
to `UNKNOWN` carrying `error_text`; otherwise dispatch on `errorType`
(`message`: `CLAIMED` unless `errorMsg` occurs in the body; `status_code`:
the literal boolean `not status >= 300 or status < 200` selects `CLAIMED`;
`response_url`: `CLAIMED` for a 2xx status); an unrecognized `errorType`
raises `ValueError`, modelled as `Except.error`.  A `none` response outside
the failure branch would raise `AttributeError` in Python (it cannot occur,
since `get_response` only clears `error_text` on a response). -/
def classifyOutcome (social_network : String) (net_info : NetInfo)
    (outcome : Except ReqException Response) : Except String SiteUpdate :=
  let gr := get_response outcome
  let r := gr.1
  let error_text := gr.2.1
  let response_time : PyVal :=
    match r with
    | some resp => .vNat resp.elapsed
    | none => .vNone
  let http_status : PyVal :=
    match r with
    | some resp => .vNat resp.status_code
    | none => .vStr "?"
  let response_text : PyVal :=
    match r with
    | some resp =>
        match resp.encoding with
        | some _ => .vBytes resp.text
        | none => .vStr ""
    | none => .vStr ""
  match error_text with
  | some et => .ok ⟨⟨.UNKNOWN, some et⟩, http_status, response_text, response_time⟩
  | none =>
      match r with
      | none => .error "AttributeError"
      | some resp =>
          if net_info.errorType = "message" then
            match net_info.errorMsg with
            | none => .error "TypeError"
            | some error =>
                if ¬ strContains resp.text error then
                  .ok ⟨⟨.CLAIMED, none⟩, http_status, response_text, response_time⟩
                else
                  .ok ⟨⟨.AVAILABLE, none⟩, http_status, response_text, response_time⟩
          else if net_info.errorType = "status_code" then
            if ¬ (resp.status_code ≥ 300) ∨ resp.status_code < 200 then
              .ok ⟨⟨.CLAIMED, none⟩, http_status, response_text, response_time⟩
            else
              .ok ⟨⟨.AVAILABLE, none⟩, http_status, response_text, response_time⟩
          else if net_info.errorType = "response_url" then
            if 200 ≤ resp.status_code ∧ resp.status_code < 300 then
              .ok ⟨⟨.CLAIMED, none⟩, http_status, response_text, response_time⟩
            else
              .ok ⟨⟨.AVAILABLE, none⟩, http_status, response_text, response_time⟩
          else
            .error ("Unknown Error Type '" ++ net_info.errorType ++ "' for site '"
              ++ social_network ++ "'")

/-- Process one catalog entry end to end: skip as `ILLEGAL` when the
username fails the format gate (no transport call), otherwise dispatch the
built request through the transport and classify the outcome, assembling
the final `results_site`. -/
def processSite (username : String) (reSearch : String → String → Bool)
    (transport : Request → Except ReqException Response)
    (proxy : Option String) (timeout : Option Nat)
    (social_network : String) (net_info : NetInfo) : Except String SiteResult :=
  if regexRejects reSearch username net_info then
    .ok (illegalResult net_info)
  else
    let url := pythonFormat net_info.url username
    let request_future := probeRequest username proxy timeout net_info
    match classifyOutcome social_network net_info (transport request_future) with
    | .error e => .error e
    | .ok upd =>
        .ok { url_main := net_info.urlMain
              url_user := .vStr url
              status := some upd.result
              http_status := some upd.http_status
              response_text := some upd.response_text
              response_time_s := some upd.response_time_s }

/-- Map an `Except`-valued function over a list, stopping at the first
error (a raised exception aborts the remaining iterations). -/
def mapExcept (f : α → Except ε β) : List α → Except ε (List β)
  | [] => .ok []
  | a :: as =>
      match f a with
      | .error e => .error e
      | .ok b =>
          match mapExcept f as with
          | .error e => .error e
          | .ok bs => .ok (b :: bs)

/-- `sherlock(username, site_data, ...)`: produce one `results_site` per
catalog entry, in catalog iteration order; an unrecognized `errorType`
raises and aborts the whole run.  The two source passes (launch all
futures, then classify in catalog order) collapse to one traversal because
the transport resolves each request deterministically. -/
def sherlock (username : String) (site_data : List (String × NetInfo))
    (reSearch : String → String → Bool)
    (transport : Request → Except ReqException Response)
    (proxy : Option String) (timeout : Option Nat) :
    Except String (List (String × SiteResult)) :=
  mapExcept (fun p =>
    match processSite username reSearch transport proxy timeout p.1 p.2 with
    | .error e => .error e
    | .ok r => .ok (p.1, r)) site_data

/-! ### Concrete fixtures (catalog entries, responses, mock transports) -/

/-- A `status_code` service, as in the spec's example scenario. -/
def exampleStatusSite : NetInfo :=
  ⟨"https://ex.com", "https://ex.com/\x7b\x7d", none, "status_code", none, none, []⟩

/-- A `message` service whose error message is `"User not found"`. -/
def exampleMessageSite : NetInfo :=
  ⟨"https://msg.example", "https://msg.example/\x7b\x7d", none, "message",
    some "User not found", none, []⟩

/-- A `response_url` service. -/
def exampleResponseUrlSite : NetInfo :=
  ⟨"https://redir.example", "https://redir.example/\x7b\x7d", none, "response_url",
    none, none, []⟩

/-- A service whose `errorType` is none of the three known detection
methods. -/
def exampleBogusSite : NetInfo :=
  ⟨"https://bogus.example", "https://bogus.example/\x7b\x7d", none, "no_such_method",
    none, none, []⟩

/-- A service declaring a username-format pattern. -/
def exampleRegexSite : NetInfo :=
  ⟨"https://strict.example", "https://strict.example/\x7b\x7d", none, "status_code",
    none, some "[a-z]", []⟩

def resp200 : Response := ⟨200, "profile page", some "utf-8", 5⟩

def resp404 : Response := ⟨404, "nope", some "utf-8", 5⟩

def respFoundMsg : Response := ⟨200, "sorry, User not found here", some "utf-8", 7⟩

def respNoMsg : Response := ⟨200, "welcome to the profile", some "utf-8", 7⟩

/-- A transport that resolves every request to the same response. -/
def mockOk (resp : Response) : Request → Except ReqException Response :=
  fun _ => .ok resp

/-- An `re.search` stand-in under which every pattern matches. -/
def alwaysTrue : String → String → Bool := fun _ _ => true

/-- An `re.search` stand-in under which only the empty pattern matches
(it satisfies `re.search`'s law that the empty pattern matches anything). -/
def emptyOnly : String → String → Bool := fun p _ => decide (p = "")

/-- A transport that times out HEAD requests and answers GET requests. -/
def mock6 : Request → Except ReqException Response :=
  fun req => if req.method = "HEAD" then .error (.Timeout "boom") else .ok respNoMsg

def catalog6 : List (String × NetInfo) := [("A", exampleStatusSite), ("B", exampleMessageSite)]

/-- The run result of `sherlock "alice" catalog6 alwaysTrue mock6 none none`. -/
def results6 : List (String × SiteResult) :=
  [("A", ⟨"https://ex.com", .vStr "https://ex.com/alice",
      some ⟨.UNKNOWN, some "Timeout Error"⟩, some (.vStr "?"), some (.vStr ""), some .vNone⟩),
   ("B", ⟨"https://msg.example", .vStr "https://msg.example/alice",
      some ⟨.CLAIMED, none⟩, some (.vNat 200), some (.vBytes "welcome to the profile"),
      some (.vNat 7)⟩)]

def catalog8 : List (String × NetInfo) := [("Bogus", exampleBogusSite)]

def catalog9 : List (String × NetInfo) :=
  [("Strict", exampleRegexSite), ("Example", exampleStatusSite), ("Msg", exampleMessageSite)]

/-- The run result of `sherlock "alice" catalog9 emptyOnly (mockOk resp200) none none`. -/
def results9 : List (String × SiteResult) :=
  [("Strict", ⟨"https://strict.example", .vStr "",
      some ⟨.ILLEGAL, none⟩, some (.vStr ""), some (.vStr ""), some (.vStr "")⟩),
   ("Example", ⟨"https://ex.com", .vStr "https://ex.com/alice",
      some ⟨.CLAIMED, none⟩, some (.vNat 200), some (.vBytes "profile page"),
      some (.vNat 5)⟩),
   ("Msg", ⟨"https://msg.example", .vStr "https://msg.example/alice",
      some ⟨.CLAIMED, none⟩, some (.vNat 200), some (.vBytes "profile page"),
      some (.vNat 5)⟩)]

/-! ### Helper lemmas -/

theorem mapExcept_ok_get {α ε β : Type} {f : α → Except ε β} :
    ∀ (l : List α) (bs : List β), mapExcept f l = .ok bs →
      ∀ (k : Nat) (a : α), l[k]? = some a → ∃ b, f a = .ok b ∧ bs[k]? = some b := by
  intro l
  induction l with
  | nil => intro bs _ k a ha; simp at ha
  | cons x xs ih =>
      intro bs h k a ha
      simp only [mapExcept] at h
      cases hfx : f x with
      | error e =>
          simp only [hfx] at h
          exact Except.noConfusion h
      | ok b =>
          simp only [hfx] at h
          cases hrest : mapExcept f xs with
          | error e =>
              simp only [hrest] at h
              exact Except.noConfusion h
          | ok bs2 =>
              simp only [hrest] at h
              injection h with h
              subst h
              cases k with
              | zero =>
                  simp only [List.getElem?_cons_zero, Option.some.injEq] at ha
                  subst ha
                  exact ⟨b, hfx, by simp⟩
              | succ k =>
                  simp only [List.getElem?_cons_succ] at ha ⊢
                  exact ih bs2 hrest k a ha

theorem mapExcept_ok_map {α ε β γ : Type} {f : α → Except ε β} {g : β → γ} {g2 : α → γ}
    (hf : ∀ a b, f a = .ok b → g b = g2 a) :
    ∀ (l : List α) (bs : List β), mapExcept f l = .ok bs → bs.map g = l.map g2 := by
  intro l
  induction l with
  | nil =>
      intro bs h
      simp only [mapExcept] at h
      injection h with h
      subst h
      rfl
  | cons x xs ih =>
      intro bs h
      simp only [mapExcept] at h
      cases hfx : f x with
      | error e =>
          simp only [hfx] at h
          exact Except.noConfusion h
      | ok b =>
          simp only [hfx] at h
          cases hrest : mapExcept f xs with
          | error e =>
              simp only [hrest] at h
              exact Except.noConfusion h
          | ok bs2 =>
              simp only [hrest] at h
              injection h with h
              subst h
              simp only [List.map_cons]
              rw [hf x b hfx, ih bs2 hrest]

/-- Each catalog entry of a successful run is classified by its own
per-service processing, and lands at its own catalog position. -/
theorem sherlock_entry
    (username : String) (site_data : List (String × NetInfo))
    (reSearch : String → String → Bool)
    (transport : Request → Except ReqException Response)
    (proxy : Option String) (timeout : Option Nat)
    (results : List (String × SiteResult))
    (hok : sherlock username site_data reSearch transport proxy timeout = .ok results)
    (k : Nat) (social_network : String) (net_info : NetInfo)
    (hk : site_data[k]? = some (social_network, net_info)) :
    ∃ r, processSite username reSearch transport proxy timeout social_network net_info = .ok r
      ∧ results[k]? = some (social_network, r) := by
  obtain ⟨b, hfb, hbk⟩ := mapExcept_ok_get site_data results hok k _ hk
  cases hps : processSite username reSearch transport proxy timeout social_network net_info with
  | error e =>
      simp only [hps] at hfb
      exact Except.noConfusion hfb
  | ok r =>
      simp only [hps] at hfb
      injection hfb with hfb
      subst hfb
      exact ⟨r, rfl, hbk⟩

/-- Unfolding of `processSite` when the username passes the format gate. -/
theorem processSite_not_rejected
    (username : String) (reSearch : String → String → Bool)
    (transport : Request → Except ReqException Response)
    (proxy : Option String) (timeout : Option Nat)
    (social_network : String) (net_info : NetInfo)
    (hgate : regexRejects reSearch username net_info = false) :
    processSite username reSearch transport proxy timeout social_network net_info
      = match classifyOutcome social_network net_info
            (transport (probeRequest username proxy timeout net_info)) with
        | .error e => .error e
        | .ok upd => .ok ⟨net_info.urlMain, .vStr (pythonFormat net_info.url username),
            some upd.result, some upd.http_status, some upd.response_text,
            some upd.response_time_s⟩ := by
  unfold processSite
  rw [hgate]
  rfl

/-- A successfully classified outcome never carries the `ILLEGAL` verdict:
that verdict is only recorded by the username-format gate. -/
theorem classifyOutcome_ok_not_illegal
    (social_network : String) (net_info : NetInfo)
    (outcome : Except ReqException Response) (upd : SiteUpdate)
    (h : classifyOutcome social_network net_info outcome = .ok upd) :
    upd.result.status ≠ QueryStatus.ILLEGAL := by
  unfold classifyOutcome at h
  cases outcome with
  | error e =>
      simp only [get_response] at h
      injection h with h
      subst h
      simp
  | ok resp =>
      simp only [get_response] at h
      by_cases hs : resp.status_code ≠ 0
      · rw [if_pos hs] at h
        simp only at h
        split at h
        · split at h
          · exact absurd h (by simp)
          · split at h <;> (injection h with h; subst h; simp)
        · split at h
          · split at h <;> (injection h with h; subst h; simp)
          · split at h
            · split at h <;> (injection h with h; subst h; simp)
            · exact absurd h (by simp)
      · rw [if_neg hs] at h
        injection h with h
        subst h
        simp

/-- A transport failure classifies to `UNKNOWN` carrying the failure
category, regardless of the service's detection method; the probe-derived
fields take their fallback values. -/
theorem classifyOutcome_transport_error
    (social_network : String) (net_info : NetInfo) (e : ReqException) :
    classifyOutcome social_network net_info (.error e)
      = .ok ⟨⟨.UNKNOWN, some (error_context_of e)⟩, .vStr "?", .vStr "", .vNone⟩ := rfl

/-- Classification of a successful response for a `status_code` service:
the literal source boolean `not status >= 300 or status < 200` picks
`CLAIMED` exactly when the status is below 300. -/
theorem classifyOutcome_status_code
    (social_network : String) (net_info : NetInfo) (resp : Response)
    (hmethod : net_info.errorType = "status_code") (hs : resp.status_code ≠ 0) :
    classifyOutcome social_network net_info (.ok resp)
      = .ok ⟨⟨if resp.status_code < 300 then .CLAIMED else .AVAILABLE, none⟩,
          .vNat resp.status_code,
          (match resp.encoding with | some _ => .vBytes resp.text | none => .vStr ""),
          .vNat resp.elapsed⟩ := by
  simp only [classifyOutcome, get_response, ne_eq, hs, not_false_eq_true, if_true, hmethod,
    String.reduceEq, if_false, ite_true, ite_false, reduceCtorEq]
  by_cases h3 : resp.status_code < 300
  · rw [if_pos (by omega), if_pos h3]
  · rw [if_neg (by omega), if_neg h3]

/-- Classification of a successful response for a `message` service:
`AVAILABLE` exactly when `errorMsg` occurs as a substring of the body. -/
theorem classifyOutcome_message
    (social_network : String) (net_info : NetInfo) (resp : Response) (error : String)
    (hmethod : net_info.errorType = "message") (hmsg : net_info.errorMsg = some error)
    (hs : resp.status_code ≠ 0) :
    classifyOutcome social_network net_info (.ok resp)
      = .ok ⟨⟨if strContains resp.text error then .AVAILABLE else .CLAIMED, none⟩,
          .vNat resp.status_code,
          (match resp.encoding with | some _ => .vBytes resp.text | none => .vStr ""),
          .vNat resp.elapsed⟩ := by
  simp only [classifyOutcome, get_response, ne_eq, hs, not_false_eq_true, if_true, hmethod,
    String.reduceEq, if_false, ite_true, ite_false, hmsg, reduceCtorEq]
  by_cases hc : strContains resp.text error
  · rw [if_neg (by simp [hc]), if_pos hc]
  · rw [if_pos (by simp [hc]), if_neg hc]

/-- Classification of a successful response for a `response_url` service:
`CLAIMED` exactly for a 2xx status. -/
theorem classifyOutcome_response_url
    (social_network : String) (net_info : NetInfo) (resp : Response)
    (hmethod : net_info.errorType = "response_url") (hs : resp.status_code ≠ 0) :
    classifyOutcome social_network net_info (.ok resp)
      = .ok ⟨⟨if 200 ≤ resp.status_code ∧ resp.status_code < 300 then .CLAIMED
            else .AVAILABLE, none⟩,
          .vNat resp.status_code,
          (match resp.encoding with | some _ => .vBytes resp.text | none => .vStr ""),
          .vNat resp.elapsed⟩ := by
  simp only [classifyOutcome, get_response, ne_eq, hs, not_false_eq_true, if_true, hmethod,
    String.reduceEq, if_false, ite_true, ite_false, reduceCtorEq]
  by_cases h2 : 200 ≤ resp.status_code ∧ resp.status_code < 300
  · rw [if_pos h2, if_pos h2]
  · rw [if_neg h2, if_neg h2]

/-- Classification of a successful response for a service whose detection
method is none of the three known values: the `ValueError` raise. -/
theorem classifyOutcome_unknown_method
    (social_network : String) (net_info : NetInfo) (resp : Response)
    (hm1 : net_info.errorType ≠ "status_code")
    (hm2 : net_info.errorType ≠ "message")
    (hm3 : net_info.errorType ≠ "response_url")
    (hs : resp.status_code ≠ 0) :
    classifyOutcome social_network net_info (.ok resp)
      = .error ("Unknown Error Type '" ++ net_info.errorType ++ "' for site '"
          ++ social_network ++ "'") := by
  simp only [classifyOutcome, get_response, ne_eq, hs, not_false_eq_true, if_true,
    hm1, hm2, hm3, if_false, ite_true, ite_false, reduceCtorEq]

/-! ### Claims -/

/-- C1 counterexample: for a `status_code` service probed successfully with
HTTP status 200 (which lies in `[200,300)`), the code records `CLAIMED`,
not `AVAILABLE` as the claim states — the literal boolean
`not status >= 300 or status < 200` parses as `(status < 300) or (status < 200)`
and is true at 200. -/
theorem C1_counterexample :
    ((processSite "alice" alwaysTrue (mockOk resp200) none none "Example"
        exampleStatusSite).map (fun r => r.status)
      = .ok (some ⟨QueryStatus.CLAIMED, none⟩))
    ∧ (200 ≤ resp200.status_code ∧ resp200.status_code < 300)
    ∧ QueryStatus.CLAIMED ≠ QueryStatus.AVAILABLE :=
  ⟨rfl, by decide, by decide⟩

/-- C1 (amended): for every service with `detectionMethod == status_code`
whose probe completes with a successful transport result of HTTP status `s`,
the verdict is `CLAIMED` if `s < 300` and `AVAILABLE` otherwise (so the
polarity is the reverse of the claim: every 2xx — and also every status
below 200 — yields `CLAIMED`, and every status at or above 300 yields
`AVAILABLE`). -/
theorem C1_status_code_polarity
    (username : String) (reSearch : String → String → Bool)
    (transport : Request → Except ReqException Response)
    (proxy : Option String) (timeout : Option Nat)
    (social_network : String) (net_info : NetInfo) (resp : Response)
    (hmethod : net_info.errorType = "status_code")
    (hgate : regexRejects reSearch username net_info = false)
    (htrans : transport (probeRequest username proxy timeout net_info) = .ok resp)
    (hs : resp.status_code ≠ 0) :
    (processSite username reSearch transport proxy timeout social_network net_info).map
        (fun r => r.status)
      = .ok (some ⟨if resp.status_code < 300 then QueryStatus.CLAIMED
          else QueryStatus.AVAILABLE, none⟩) := by
  rw [processSite_not_rejected username reSearch transport proxy timeout social_network
        net_info hgate, htrans,
      classifyOutcome_status_code social_network net_info resp hmethod hs]
  rfl

/-- C1 witness: a `status_code` probe answered with status 404 is recorded
as `AVAILABLE`. -/
theorem C1_witness :
    (processSite "alice" alwaysTrue (mockOk resp404) none none "Example"
        exampleStatusSite).map (fun r => r.status)
      = .ok (some ⟨QueryStatus.AVAILABLE, none⟩) := by
  have h := C1_status_code_polarity "alice" alwaysTrue (mockOk resp404) none none "Example"
      exampleStatusSite resp404 rfl rfl rfl (by decide)
  exact h.trans (by rfl)

/-- C2: for every service with `detectionMethod == message` whose probe
completes with a successful transport result, the verdict is `AVAILABLE`
exactly when the service's `errorMsg` occurs verbatim as a substring of the
response body, and `CLAIMED` otherwise. -/
theorem C2_message_classification
    (username : String) (reSearch : String → String → Bool)
    (transport : Request → Except ReqException Response)
    (proxy : Option String) (timeout : Option Nat)
    (social_network : String) (net_info : NetInfo) (resp : Response) (error : String)
    (hmethod : net_info.errorType = "message")
    (hmsg : net_info.errorMsg = some error)
    (hgate : regexRejects reSearch username net_info = false)
    (htrans : transport (probeRequest username proxy timeout net_info) = .ok resp)
    (hs : resp.status_code ≠ 0) :
    (processSite username reSearch transport proxy timeout social_network net_info).map
        (fun r => r.status)
      = .ok (some ⟨if strContains resp.text error then QueryStatus.AVAILABLE
          else QueryStatus.CLAIMED, none⟩) := by
  rw [processSite_not_rejected username reSearch transport proxy timeout social_network
        net_info hgate, htrans,
      classifyOutcome_message social_network net_info resp error hmethod hmsg hs]
  rfl

/-- C2 witness: a `message` probe whose body contains the error message
verbatim is recorded as `AVAILABLE`. -/
theorem C2_witness :
    (processSite "alice" alwaysTrue (mockOk respFoundMsg) none none "Msg"
        exampleMessageSite).map (fun r => r.status)
      = .ok (some ⟨QueryStatus.AVAILABLE, none⟩) := by
  have h := C2_message_classification "alice" alwaysTrue (mockOk respFoundMsg) none none "Msg"
      exampleMessageSite respFoundMsg "User not found" rfl rfl rfl rfl (by decide)
  exact h.trans (by rfl)

/-- C3: for every service with `detectionMethod == response_url` whose probe
completes with a successful transport result of HTTP status `s`, the verdict
is `CLAIMED` if `200 ≤ s < 300` and `AVAILABLE` otherwise. -/
theorem C3_response_url_classification
    (username : String) (reSearch : String → String → Bool)
    (transport : Request → Except ReqException Response)
    (proxy : Option String) (timeout : Option Nat)
    (social_network : String) (net_info : NetInfo) (resp : Response)
    (hmethod : net_info.errorType = "response_url")
    (hgate : regexRejects reSearch username net_info = false)
    (htrans : transport (probeRequest username proxy timeout net_info) = .ok resp)
    (hs : resp.status_code ≠ 0) :
    (processSite username reSearch transport proxy timeout social_network net_info).map
        (fun r => r.status)
      = .ok (some ⟨if 200 ≤ resp.status_code ∧ resp.status_code < 300 then QueryStatus.CLAIMED
          else QueryStatus.AVAILABLE, none⟩) := by
  rw [processSite_not_rejected username reSearch transport proxy timeout social_network
        net_info hgate, htrans,
      classifyOutcome_response_url social_network net_info resp hmethod hs]
  rfl

/-- C3 witness: a `response_url` probe answered with status 200 is recorded
as `CLAIMED`. -/
theorem C3_witness :
    (processSite "alice" alwaysTrue (mockOk resp200) none none "Redir"
        exampleResponseUrlSite).map (fun r => r.status)
      = .ok (some ⟨QueryStatus.CLAIMED, none⟩) := by
  have h := C3_response_url_classification "alice" alwaysTrue (mockOk resp200) none none "Redir"
      exampleResponseUrlSite resp200 rfl rfl rfl (by decide)
  exact h.trans (by rfl)

/-- C4: the dispatched request disables redirect-following exactly when the
service's detection method is `response_url`; for every other detection
method the request allows redirects. -/
theorem C4_redirects
    (username : String) (proxy : Option String) (timeout : Option Nat)
    (net_info : NetInfo) :
    (probeRequest username proxy timeout net_info).allow_redirects
      = (if net_info.errorType = "response_url" then false else true) := rfl

/-- C5: the dispatched request uses the header-only HEAD method exactly when
the service's detection method is `status_code`; every other detection
method issues a body-fetching GET request. -/
theorem C5_request_method
    (username : String) (proxy : Option String) (timeout : Option Nat)
    (net_info : NetInfo) :
    (probeRequest username proxy timeout net_info).method
      = (if net_info.errorType = "status_code" then "HEAD" else "GET") := rfl

/-- Unfolded success case of `processSite` for a non-rejected username. -/
theorem processSite_ok_fields
    (username : String) (reSearch : String → String → Bool)
    (transport : Request → Except ReqException Response)
    (proxy : Option String) (timeout : Option Nat)
    (social_network : String) (net_info : NetInfo) (upd : SiteUpdate)
    (hgate : regexRejects reSearch username net_info = false)
    (hco : classifyOutcome social_network net_info
        (transport (probeRequest username proxy timeout net_info)) = .ok upd) :
    processSite username reSearch transport proxy timeout social_network net_info
      = .ok ⟨net_info.urlMain, .vStr (pythonFormat net_info.url username),
          some upd.result, some upd.http_status, some upd.response_text,
          some upd.response_time_s⟩ := by
  rw [processSite_not_rejected username reSearch transport proxy timeout social_network
        net_info hgate, hco]

/-- Unfolded failure case of `processSite` for a non-rejected username: a
raised exception from classification propagates. -/
theorem processSite_error
    (username : String) (reSearch : String → String → Bool)
    (transport : Request → Except ReqException Response)
    (proxy : Option String) (timeout : Option Nat)
    (social_network : String) (net_info : NetInfo) (e : String)
    (hgate : regexRejects reSearch username net_info = false)
    (hco : classifyOutcome social_network net_info
        (transport (probeRequest username proxy timeout net_info)) = .error e) :
    processSite username reSearch transport proxy timeout social_network net_info
      = .error e := by
  rw [processSite_not_rejected username reSearch transport proxy timeout social_network
        net_info hgate, hco]

/-- C6 counterexample: a probe failing with `Timeout("boom")` is recorded as
`UNKNOWN` whose carried context is exactly the failure category
`"Timeout Error"`; the exception's message `"boom"` appears nowhere in the
stored result (it is only passed to the console printer), so the verdict
does not carry the failure message. -/
theorem C6_counterexample :
    processSite "alice" alwaysTrue (fun _ => .error (.Timeout "boom")) none none "Example"
        exampleStatusSite
      = .ok ⟨"https://ex.com", .vStr "https://ex.com/alice",
          some ⟨.UNKNOWN, some "Timeout Error"⟩,
          some (.vStr "?"), some (.vStr ""), some .vNone⟩
    ∧ expection_text_of (.Timeout "boom") = "boom"
    ∧ strContains "Timeout Error" "boom" = false :=
  ⟨rfl, rfl, by decide⟩

/-- C6 (amended): for every service whose probe fails at the transport layer
(timeout, connection error, proxy error, HTTP error, or any other request
exception), the verdict is `UNKNOWN` carrying the failure category (the
exception message itself is only printed, not stored), no content-based
classification is applied (the detection method and body are never
consulted), and every service of the same run — this one included — is
still classified by its own per-service processing, at its own catalog
position. -/
theorem C6_transport_failure
    (username : String) (site_data : List (String × NetInfo))
    (reSearch : String → String → Bool)
    (transport : Request → Except ReqException Response)
    (proxy : Option String) (timeout : Option Nat)
    (results : List (String × SiteResult))
    (k : Nat) (social_network : String) (net_info : NetInfo) (e : ReqException)
    (hok : sherlock username site_data reSearch transport proxy timeout = .ok results)
    (hk : site_data[k]? = some (social_network, net_info))
    (hgate : regexRejects reSearch username net_info = false)
    (htrans : transport (probeRequest username proxy timeout net_info) = .error e) :
    results[k]? = some (social_network,
      ⟨net_info.urlMain, .vStr (pythonFormat net_info.url username),
        some ⟨.UNKNOWN, some (error_context_of e)⟩,
        some (.vStr "?"), some (.vStr ""), some .vNone⟩)
    ∧ ∀ (j : Nat) (nm : String) (info2 : NetInfo), site_data[j]? = some (nm, info2) →
        ∃ r2, processSite username reSearch transport proxy timeout nm info2 = .ok r2
          ∧ results[j]? = some (nm, r2) := by
  have hps : processSite username reSearch transport proxy timeout social_network net_info
      = .ok ⟨net_info.urlMain, .vStr (pythonFormat net_info.url username),
          some ⟨.UNKNOWN, some (error_context_of e)⟩,
          some (.vStr "?"), some (.vStr ""), some .vNone⟩ := by
    rw [processSite_not_rejected username reSearch transport proxy timeout social_network
          net_info hgate, htrans, classifyOutcome_transport_error]
  constructor
  · obtain ⟨r, hr, hrk⟩ := sherlock_entry username site_data reSearch transport proxy timeout
        results hok k social_network net_info hk
    rw [hps] at hr
    injection hr with hr
    subst hr
    exact hrk
  · intro j nm info2 hj
    exact sherlock_entry username site_data reSearch transport proxy timeout results hok
        j nm info2 hj

/-- C6 witness: in a two-service run where the first probe times out, the
first entry is `UNKNOWN` with category `"Timeout Error"` while the second
service is classified normally. -/
theorem C6_witness :
    results6[0]? = some ("A",
      ⟨"https://ex.com", .vStr "https://ex.com/alice",
        some ⟨.UNKNOWN, some "Timeout Error"⟩,
        some (.vStr "?"), some (.vStr ""), some .vNone⟩) :=
  (C6_transport_failure "alice" catalog6 alwaysTrue mock6 none none results6 0 "A"
      exampleStatusSite (.Timeout "boom") rfl rfl rfl rfl).1

/-- C7: for every service declaring a username pattern that the username
fails to match, the verdict is `ILLEGAL` and no network request is issued —
the conclusion holds for an arbitrary transport, which is never consulted.
(The hypothesis that the empty pattern matches everything is a law of
`re.search`; it makes a failing match imply the pattern is truthy.) -/
theorem C7_illegal_skip
    (username : String) (reSearch : String → String → Bool)
    (transport : Request → Except ReqException Response)
    (proxy : Option String) (timeout : Option Nat)
    (social_network regex_check : String) (net_info : NetInfo)
    (hrc : net_info.regexCheck = some regex_check)
    (hfail : reSearch regex_check username = false)
    (hempty : ∀ u, reSearch "" u = true) :
    processSite username reSearch transport proxy timeout social_network net_info
      = .ok (illegalResult net_info)
    ∧ (illegalResult net_info).status = some ⟨QueryStatus.ILLEGAL, none⟩ := by
  have hne : regex_check ≠ "" := by
    intro h
    rw [h, hempty] at hfail
    exact Bool.noConfusion hfail
  have hgate : regexRejects reSearch username net_info = true := by
    simp only [regexRejects, hrc, hfail, Bool.not_false, Bool.and_true]
    exact decide_eq_true hne
  refine ⟨?_, rfl⟩
  unfold processSite
  rw [if_pos hgate]

/-- C7 witness: the username `"123"` fails the pattern `"[a-z]"`, so the
service is skipped as `ILLEGAL` under any transport. -/
theorem C7_witness :
    processSite "123" emptyOnly (mockOk resp200) none none "Strict" exampleRegexSite
      = .ok (illegalResult exampleRegexSite) :=
  (C7_illegal_skip "123" emptyOnly (mockOk resp200) none none "Strict" "[a-z]"
      exampleRegexSite rfl rfl (fun _ => rfl)).1

/-- C8: a service reaching classification (successful transport) whose
detection method is none of the three known values makes `sherlock` raise
`ValueError` — its own classification is the raised error, not an `UNKNOWN`
entry, and the whole run returns no result map at all. -/
theorem C8_unknown_method_fatal
    (username : String) (site_data : List (String × NetInfo))
    (reSearch : String → String → Bool)
    (transport : Request → Except ReqException Response)
    (proxy : Option String) (timeout : Option Nat)
    (k : Nat) (social_network : String) (net_info : NetInfo) (resp : Response)
    (hk : site_data[k]? = some (social_network, net_info))
    (hm1 : net_info.errorType ≠ "status_code")
    (hm2 : net_info.errorType ≠ "message")
    (hm3 : net_info.errorType ≠ "response_url")
    (hgate : regexRejects reSearch username net_info = false)
    (htrans : transport (probeRequest username proxy timeout net_info) = .ok resp)
    (hs : resp.status_code ≠ 0) :
    processSite username reSearch transport proxy timeout social_network net_info
      = .error ("Unknown Error Type '" ++ net_info.errorType ++ "' for site '"
          ++ social_network ++ "'")
    ∧ ∀ results, sherlock username site_data reSearch transport proxy timeout
        ≠ .ok results := by
  have hco : classifyOutcome social_network net_info
      (transport (probeRequest username proxy timeout net_info))
      = .error ("Unknown Error Type '" ++ net_info.errorType ++ "' for site '"
          ++ social_network ++ "'") := by
    rw [htrans]
    exact classifyOutcome_unknown_method social_network net_info resp hm1 hm2 hm3 hs
  have hps := processSite_error username reSearch transport proxy timeout social_network
      net_info _ hgate hco
  refine ⟨hps, ?_⟩
  intro results hok
  obtain ⟨r, hr, _⟩ := sherlock_entry username site_data reSearch transport proxy timeout
      results hok k social_network net_info hk
  rw [hps] at hr
  exact Except.noConfusion hr

/-- C8 witness: a one-service catalog whose detection method is
`"no_such_method"` makes the classification raise and the run abort. -/
theorem C8_witness :
    processSite "alice" alwaysTrue (mockOk resp200) none none "Bogus" exampleBogusSite
      = .error "Unknown Error Type 'no_such_method' for site 'Bogus'" :=
  (C8_unknown_method_fatal "alice" catalog8 alwaysTrue (mockOk resp200) none none 0
      "Bogus" exampleBogusSite resp200 rfl (by decide) (by decide) (by decide) rfl rfl
      (by decide)).1

/-- C9: every successful run result has exactly one entry per catalog
service, in catalog iteration order — its keys, in order, are the catalog's
keys (services skipped as `ILLEGAL` included; probe outcomes are resolved
by a deterministic transport, so no arrival order can influence this). -/
theorem C9_result_keys
    (username : String) (site_data : List (String × NetInfo))
    (reSearch : String → String → Bool)
    (transport : Request → Except ReqException Response)
    (proxy : Option String) (timeout : Option Nat)
    (results : List (String × SiteResult))
    (hok : sherlock username site_data reSearch transport proxy timeout = .ok results) :
    results.map Prod.fst = site_data.map Prod.fst := by
  have hok2 : mapExcept (fun p =>
      match processSite username reSearch transport proxy timeout p.1 p.2 with
      | .error e => .error e
      | .ok r => .ok (p.1, r)) site_data = .ok results := hok
  refine mapExcept_ok_map ?_ site_data results hok2
  intro a b hab
  cases hps : processSite username reSearch transport proxy timeout a.1 a.2 with
  | error e =>
      simp only [hps] at hab
      exact Except.noConfusion hab
  | ok r =>
      simp only [hps] at hab
      injection hab with hab
      rw [← hab]

/-- C9 witness: a three-service run (one service skipped as `ILLEGAL`)
returns entries whose keys equal the catalog keys, in order. -/
theorem C9_witness : results9.map Prod.fst = catalog9.map Prod.fst :=
  C9_result_keys "alice" catalog9 emptyOnly (mockOk resp200) none none results9 rfl

/-- C10: every result entry whose verdict is `ILLEGAL` has empty strings in
its `url_user`, `http_status`, `response_text` and `response_time_s` fields:
no profile URL, status, body or timing is reported for a service skipped by
the username-format check. -/
theorem C10_illegal_empty_fields
    (username : String) (reSearch : String → String → Bool)
    (transport : Request → Except ReqException Response)
    (proxy : Option String) (timeout : Option Nat)
    (social_network : String) (net_info : NetInfo) (r : SiteResult) (q : QueryResult)
    (hok : processSite username reSearch transport proxy timeout social_network net_info
        = .ok r)
    (hst : r.status = some q)
    (hq : q.status = QueryStatus.ILLEGAL) :
    r.url_user = .vStr "" ∧ r.http_status = some (.vStr "")
      ∧ r.response_text = some (.vStr "") ∧ r.response_time_s = some (.vStr "") := by
  by_cases hgate : regexRejects reSearch username net_info = true
  · unfold processSite at hok
    rw [if_pos hgate] at hok
    injection hok with hok
    subst hok
    exact ⟨rfl, rfl, rfl, rfl⟩
  · have hgate2 : regexRejects reSearch username net_info = false :=
      Bool.eq_false_iff.mpr hgate
    cases hco : classifyOutcome social_network net_info
        (transport (probeRequest username proxy timeout net_info)) with
    | error e =>
        rw [processSite_error username reSearch transport proxy timeout social_network
              net_info e hgate2 hco] at hok
        exact Except.noConfusion hok
    | ok upd =>
        rw [processSite_ok_fields username reSearch transport proxy timeout social_network
              net_info upd hgate2 hco] at hok
        injection hok with hok
        subst hok
        have hres : upd.result = q := by
          simpa using hst
        have hni := classifyOutcome_ok_not_illegal social_network net_info _ upd hco
        rw [hres, hq] at hni
        exact absurd rfl hni

/-- C10 witness: the `ILLEGAL` entry produced for username `"123"` on the
pattern-guarded service has empty strings in all four fields. -/
theorem C10_witness :
    (illegalResult exampleRegexSite).url_user = .vStr ""
    ∧ (illegalResult exampleRegexSite).http_status = some (.vStr "")
    ∧ (illegalResult exampleRegexSite).response_text = some (.vStr "")
    ∧ (illegalResult exampleRegexSite).response_time_s = some (.vStr "") :=
  C10_illegal_empty_fields "123" emptyOnly (mockOk resp200) none none "Strict"
    exampleRegexSite (illegalResult exampleRegexSite) ⟨.ILLEGAL, none⟩ rfl rfl rfl
